import Mathlib

set_option autoImplicit false

/-
Verification development for the chat-completion tool-calling orchestration
of the anthropic_rooms_pkg repository.

The embedding translates, in a shallow style:
  - src/anthropic_rooms_pkg/actions/chat_completion.py
      (_parse_tool_input, _determine_tool_success, _extract_error_message,
       _execute_tool_with_retries, chat_completion)
  - src/anthropic_rooms_pkg/tools/base.py (class ToolRegistry)

Python dictionaries are modelled as association lists with first-match
lookup and in-place update, Python None / strings / numbers by an inductive
value type, raised exceptions by Except with the exception text, and the
remote model client by a finite script of responses consumed one call at a
time (an exhausted script behaves as a raising client).  Wall-clock timing
and logger output, which influence no control flow, are elided.
-/

/-- Python values that can appear in a tool input mapping. -/
inductive PyVal where
  | none
  | str (s : String)
  | int (n : Int)
  | bool (b : Bool)
  | list (xs : List PyVal)
  | dict (xs : List (String × PyVal))

/-- A Python dict keyed by strings, in insertion order. -/
abbrev PyDict := List (String × PyVal)

/-- First-match lookup in an association list (Python dict get). -/
def alistGet {α : Type} : List (String × α) → String → Option α
  | [], _ => Option.none
  | (k2, v) :: rest, k => if k2 = k then some v else alistGet rest k

/-- In-place update of an association list: replace the first binding of the
key or append a fresh binding at the end (Python dict item assignment). -/
def alistSet {α : Type} : List (String × α) → String → α → List (String × α)
  | [], k, v => [(k, v)]
  | (k2, w) :: rest, k, v =>
    if k2 = k then (k, v) :: rest else (k2, w) :: alistSet rest k v

/-- The keys of an association list, in order. -/
def alistKeys {α : Type} (l : List (String × α)) : List String :=
  l.map Prod.fst

/-- One parameter entry of a tool input_schema: its declared "type" value as
read by param_schema.get of the key type, and the value stored under the key
default, where Option.none models an absent key. -/
structure ParamSchema where
  type? : Option String
  default? : Option PyVal

/-- One tool definition as consulted by _parse_tool_input: the properties
mapping of tools[name].get of input_schema.  An absent or empty input_schema
or properties is modelled by the empty list. -/
structure ToolDef where
  properties : List (String × ParamSchema)

/-- Python str.strip(): remove whitespace from both ends.  Implemented over
the character list so that it evaluates inside the kernel. -/
def pyStrip (s : String) : String :=
  String.mk (((s.data.dropWhile Char.isWhitespace).reverse.dropWhile
    Char.isWhitespace).reverse)

/-- Python str.startswith for a single-character head test. -/
def strStartsWithChar (s : String) (c : Char) : Bool :=
  match s.data with
  | [] => false
  | c2 :: _ => c2 = c

/-- The character opening brace, written by code point. -/
def braceChar : Char := Char.ofNat 123

/-- The character opening bracket, written by code point. -/
def bracketChar : Char := Char.ofNat 91

/-- The loop body of _parse_tool_input (chat_completion.py lines 49-78) for a
single parameter entry.  jl models json.loads (Option.none when it raises
JSONDecodeError) and lv models ast.literal_eval (Option.none when it raises
ValueError or SyntaxError); a parse producing the Python value None is
handled like a failed parse by the "parsed_value is not None" test. -/
def coerceParam (jl lv : String → Option PyVal)
    (properties : List (String × ParamSchema))
    (parsed : PyDict) (pv : String × PyVal) : PyDict :=
  let parsed1 := alistSet parsed pv.1 pv.2
  match alistGet properties pv.1, pv.2 with
  | some param_schema, PyVal.str s =>
    if param_schema.type? = some "object" ∨ param_schema.type? = some "array" then
      if strStartsWithChar (pyStrip s) braceChar ||
          strStartsWithChar (pyStrip s) bracketChar then
        match (match jl s with | some v => some v | Option.none => lv s) with
        | some PyVal.none => parsed1
        | some v => alistSet parsed1 pv.1 v
        | Option.none => parsed1
      else if pyStrip s = "null" ∨ pyStrip s = "None" ∨ pyStrip s = "" then
        match param_schema.default? with
        | Option.none => alistSet parsed1 pv.1 PyVal.none
        | some PyVal.none => alistSet parsed1 pv.1 PyVal.none
        | some _ => alistSet parsed1 pv.1 (PyVal.str s)
      else parsed1
    else parsed1
  | _, _ => parsed1

/-- _parse_tool_input (chat_completion.py lines 35-80): best-effort coercion
of string-encoded structured arguments, guided by the declared schema. -/
def parse_tool_input (jl lv : String → Option PyVal) (tool_input : PyDict)
    (tool_name : String) (tools : List (String × ToolDef)) : PyDict :=
  match tool_input with
  | [] => tool_input
  | _ :: _ =>
    match alistGet tools tool_name with
    | Option.none => tool_input
    | some td =>
      match td.properties with
      | [] => tool_input
      | _ :: _ => tool_input.foldl (coerceParam jl lv td.properties) []

/-- A Python value returned by a tool function, as probed by the success
classifier: an object carrying optional code and message attributes, a dict
carrying optional code and message keys, a plain string, or None.  The rep
field records the str() rendering of objects and dicts. -/
inductive ToolRet where
  | pynone
  | pystr (s : String)
  | pyobj (code : Option Int) (message : Option String) (rep : String)
  | pydict (code : Option Int) (message : Option String) (rep : String)
deriving DecidableEq

/-- Python str() of a tool result. -/
def pyStr : ToolRet → String
  | ToolRet.pynone => "None"
  | ToolRet.pystr s => s
  | ToolRet.pyobj _ _ rep => rep
  | ToolRet.pydict _ _ rep => rep

/-- _determine_tool_success (chat_completion.py lines 82-89): a result with a
code attribute is a success iff code < 400; a dict with a non-None code key
is a failure iff code >= 400; everything else is a success. -/
def determine_tool_success : ToolRet → Bool
  | ToolRet.pyobj (some c) _ _ => decide (c < 400)
  | ToolRet.pydict (some c) _ _ => !decide (400 ≤ c)
  | _ => true

/-- _extract_error_message (chat_completion.py lines 91-98): a message is
extracted only from a result with both message and code attributes and
code >= 400, or from a dict with code >= 400 (defaulting the message). -/
def extract_error_message : ToolRet → Option String
  | ToolRet.pyobj (some c) (some m) _ =>
      if 400 ≤ c then some m else Option.none
  | ToolRet.pydict (some c) m _ =>
      if 400 ≤ c then some (m.getD "Tool execution completed with errors")
      else Option.none
  | _ => Option.none

/-- The orchestrator test tool_result == "RETRY": true exactly for the
string "RETRY" (Python equality of a non-string with a string is False). -/
def isRetrySentinel : ToolRet → Bool
  | ToolRet.pystr s => s = "RETRY"
  | _ => false

/-- The orchestrator test tool_result is None. -/
def isPyNone : ToolRet → Bool
  | ToolRet.pynone => true
  | _ => false

/-- Python f-string rendering of an optional error message: None prints as
the text None. -/
def optMsgStr : Option String → String
  | some m => m
  | Option.none => "None"


/-- A content block of a model response: a text block or a tool_use block
with tool name, input mapping and block id.  Other block kinds are not
consulted by the orchestrator. -/
inductive ContentBlock where
  | text (t : String)
  | tool_use (name : String) (input : PyDict) (id : String)

/-- A tool_result content block: the dict with keys type (always the string
tool_result), tool_use_id and content built by the orchestrator. -/
structure TRBlock where
  tool_use_id : String
  content : String

/-- Conversation message content: plain text, the raw content blocks of a
model response (the assistant echo appended by the orchestrator), or a list
of tool-result blocks (the user message carrying results). -/
inductive MsgContent where
  | text (s : String)
  | blocks (bs : List ContentBlock)
  | results (rs : List TRBlock)

/-- A conversation message. -/
structure Msg where
  role : String
  content : MsgContent

/-- The keyword arguments passed to the observer callback by
_execute_tool_with_retries.  output_data is supplied on the success-path
report and omitted on the exception-path report; wall-clock
execution_time_ms is elided. -/
structure ObsCall where
  tool_name : String
  addon_id : String
  input_parameters : PyDict
  output_data : Option ToolRet
  success : Bool
  error_message : Option String
  retry_attempt : Nat
  max_retries : Nat

/-- An observer callback: Option.none means the call returns normally, some
e means it raises an exception whose str() is e. -/
def Observer : Type := ObsCall → Option String

/-- Python truthiness of the optional addon_id string argument: None and the
empty string are falsy. -/
def optTruthy : Option String → Bool
  | some s => !(s = "")
  | Option.none => false

/-- The guarded observer invocation (if observer_callback and addon_id).
Returns the call outcome together with the list of invocations made. -/
def notifyObserver (obs : Option Observer) (aid : Option String)
    (c : ObsCall) : Except String Unit × List ObsCall :=
  match obs with
  | some o =>
    if optTruthy aid then
      (match o c with
       | some e => Except.error e
       | Option.none => Except.ok (), [c])
    else (Except.ok (), [])
  | Option.none => (Except.ok (), [])

/-- A registered tool function invoked with the coerced keyword arguments:
Except.error e models a raised exception with str() equal to e. -/
def ToolFunction : Type := PyDict → Except String ToolRet

/-- The registry operations consumed by _execute_tool_with_retries.
get_max_retries is an attribute access that may raise (Except.error models
an AttributeError); get_function returns the function or Python None. -/
structure RegistryIface where
  get_max_retries : String → Except String Nat
  get_function : String → Option ToolFunction

/-- Per-run retry counter mapping tool names to attempts so far. -/
abbrev RetryCounts := List (String × Nat)

/-- tool_retry_counts.get(tool_name, 0). -/
def rcGet (counts : RetryCounts) (k : String) : Nat :=
  (alistGet counts k).getD 0

/-- The outcome of one _execute_tool_with_retries call: the returned pair
(tool_result, error_message) or a propagated exception, together with the
final retry counter, the final conversation, and the observer invocations
made.  A propagated exception leaves counter and conversation unchanged,
matching the source, where no mutation precedes a propagating raise. -/
structure AdapterOut where
  result : Except String (ToolRet × Option String)
  counts : RetryCounts
  conv : List Msg
  obs_calls : List ObsCall

/-- The retry-guidance user message appended on a retried failure
(chat_completion.py lines 136-140 and 164-168). -/
def retryGuidanceMsg (tool_name error_msg : String) : Msg :=
  ⟨"user", MsgContent.text ("The " ++ tool_name ++ " tool failed with error: "
      ++ error_msg ++ ". Please try again with corrected parameters.")⟩

/-- The except branch of _execute_tool_with_retries (lines 143-169): report
to the observer, then either return (None, error_msg) when the budget is
exhausted or increment the counter, append guidance and signal RETRY. -/
def adapterExcept (obs : Option Observer) (aid : Option String)
    (tool_name : String) (parsed_input : PyDict)
    (current_retry max_retries : Nat) (counts : RetryCounts)
    (conv : List Msg) (error_msg : String) (tr0 : List ObsCall) : AdapterOut :=
  let nr := notifyObserver obs aid
    ⟨tool_name, aid.getD "", parsed_input, Option.none, false, some error_msg,
     current_retry, max_retries⟩
  match nr.1 with
  | Except.error e2 => ⟨Except.error e2, counts, conv, tr0 ++ nr.2⟩
  | Except.ok _ =>
    if max_retries ≤ current_retry then
      ⟨Except.ok (ToolRet.pynone, some error_msg), counts, conv, tr0 ++ nr.2⟩
    else
      ⟨Except.ok (ToolRet.pystr "RETRY", some error_msg),
       alistSet counts tool_name (current_retry + 1),
       conv ++ [retryGuidanceMsg tool_name error_msg], tr0 ++ nr.2⟩

/-- _execute_tool_with_retries (chat_completion.py lines 100-169).  The call
tool_registry.get_max_retries(tool_name) on line 101 is an attribute access
on the supplied registry and is the first step; a lookup failure (as with the
repository ToolRegistry class, which defines no such method) propagates.  An
exception raised by the success-path observer report is caught by the same
except handler as a tool failure, exactly as in the source. -/
def execToolWithRetries (reg : RegistryIface)
    (tools : List (String × ToolDef)) (obs : Option Observer)
    (aid : Option String) (jl lv : String → Option PyVal)
    (tool_name : String) (tool_input : PyDict)
    (counts : RetryCounts) (conv : List Msg) : AdapterOut :=
  match reg.get_max_retries tool_name with
  | Except.error e => ⟨Except.error e, counts, conv, []⟩
  | Except.ok max_retries =>
    let current_retry := rcGet counts tool_name
    match reg.get_function tool_name with
    | Option.none =>
      ⟨Except.ok (ToolRet.pynone, some ("Tool " ++ tool_name ++ " not found")),
       counts, conv, []⟩
    | some f =>
      let parsed_input := parse_tool_input jl lv tool_input tool_name tools
      match f parsed_input with
      | Except.ok tool_result =>
        let success := determine_tool_success tool_result
        let error_message :=
          if success then Option.none else extract_error_message tool_result
        let nr := notifyObserver obs aid
          ⟨tool_name, aid.getD "", parsed_input, some tool_result, success,
           error_message, current_retry, max_retries⟩
        match nr.1 with
        | Except.error e =>
          adapterExcept obs aid tool_name parsed_input current_retry
            max_retries counts conv e nr.2
        | Except.ok _ =>
          if success || max_retries ≤ current_retry then
            ⟨Except.ok (tool_result, error_message), counts, conv, nr.2⟩
          else
            match error_message with
            | some em =>
              if em = "" then
                ⟨Except.ok (ToolRet.pystr "RETRY", some em),
                 alistSet counts tool_name (current_retry + 1), conv, nr.2⟩
              else
                ⟨Except.ok (ToolRet.pystr "RETRY", some em),
                 alistSet counts tool_name (current_retry + 1),
                 conv ++ [retryGuidanceMsg tool_name em], nr.2⟩
            | Option.none =>
              ⟨Except.ok (ToolRet.pystr "RETRY", Option.none),
               alistSet counts tool_name (current_retry + 1), conv, nr.2⟩
      | Except.error e =>
        adapterExcept obs aid tool_name parsed_input current_retry
          max_retries counts conv e []

/-- Class ToolRegistry from tools/base.py: the two instance attributes set by
its constructor.  The class defines the methods register_tools,
_register_single_tool, _convert_annotations_to_schema, _basic_type_converter,
get_tools_for_action, get_function and clear, and no others. -/
structure ToolRegistry where
  functions : List (String × ToolFunction)
  tool_definitions : List (String × ToolDef)

/-- ToolRegistry.get_function (tools/base.py lines 111-113):
self.functions.get(action_name). -/
def ToolRegistry.get_function (r : ToolRegistry) (action_name : String) :
    Option ToolFunction :=
  alistGet r.functions action_name

/-- The registry operations a ToolRegistry instance offers to
_execute_tool_with_retries under Python attribute lookup: get_function
resolves to the method above, while get_max_retries matches no method or
instance attribute of the class, so the access raises AttributeError. -/
def ToolRegistry.iface (r : ToolRegistry) : RegistryIface :=
  { get_max_retries := fun _ =>
      Except.error "AttributeError: ToolRegistry object has no attribute get_max_retries"
    get_function := r.get_function }

/-- Modelled from the spec: the Tool Registry contract of section 4.1 offers
get_max_retries(name) -> integer, default if unknown, with max_retries a
non-negative integer stored per tool.  The ToolRegistry class under src/
defines no such method, so the per-tool budgets and the default are modelled
here from the specification text; get_function follows the class. -/
def specRegistry (funcs : List (String × ToolFunction))
    (budgets : List (String × Nat)) (dflt : Nat) : RegistryIface :=
  { get_max_retries := fun n => Except.ok ((alistGet budgets n).getD dflt)
    get_function := fun n => alistGet funcs n }

/-- Token usage reported with one model response. -/
structure Usage where
  input_tokens : Nat
  output_tokens : Nat

/-- One response of the remote model client. -/
structure Response where
  content : List ContentBlock
  usage : Usage
  stop_reason : String

/-- The fixed collaborators of one orchestration run: the tool-definition
map, optional registry, optional observer callback, optional addon id, and
the two string parsers used by input coercion. -/
structure OrchEnv where
  tools : List (String × ToolDef)
  registry : Option RegistryIface
  observer : Option Observer
  addon_id : Option String
  jloads : String → Option PyVal
  lival : String → Option PyVal

/-- The mutable orchestration state while content blocks are processed:
accumulated response text, pending tool-result blocks of the current round,
the retry counter, the conversation, and the run-level retry flag. -/
structure OrchSt where
  response_text : String
  tool_results : List TRBlock
  counts : RetryCounts
  conv : List Msg
  should_retry : Bool

/-- Shorthand for the adapter call the orchestrator makes. -/
def adapterOf (env : OrchEnv) (reg : RegistryIface) (name : String)
    (input : PyDict) (counts : RetryCounts) (conv : List Msg) : AdapterOut :=
  execToolWithRetries reg env.tools env.observer env.addon_id env.jloads
    env.lival name input counts conv

/-- Processing of one content block (chat_completion.py lines 247-277 and
identically lines 328-359): text blocks extend the answer text; a tool_use
block is dispatched when a registry is supplied, a RETRY sentinel sets the
run-level retry flag, any other non-None result is appended as a
tool-result block via str(), and None is appended as an error block. -/
def processBlock (env : OrchEnv) (st : OrchSt) (b : ContentBlock) :
    Except String OrchSt :=
  match b with
  | ContentBlock.text t =>
    Except.ok { st with response_text := st.response_text ++ t }
  | ContentBlock.tool_use name input id =>
    match env.registry with
    | Option.none => Except.ok st
    | some reg =>
      let out := adapterOf env reg name input st.counts st.conv
      match out.result with
      | Except.error e => Except.error e
      | Except.ok (ret, err) =>
        let st2 := { st with counts := out.counts, conv := out.conv }
        if isRetrySentinel ret then
          Except.ok { st2 with should_retry := true }
        else if !isPyNone ret then
          Except.ok { st2 with tool_results :=
            st2.tool_results ++ [⟨id, pyStr ret⟩] }
        else
          Except.ok { st2 with tool_results :=
            st2.tool_results ++ [⟨id, "Error executing tool: " ++ optMsgStr err⟩] }

/-- Left-to-right processing of the content blocks of one response. -/
def processBlocks (env : OrchEnv) (bs : List ContentBlock) (st : OrchSt) :
    Except String OrchSt :=
  match bs with
  | [] => Except.ok st
  | b :: rest =>
    match processBlock env st b with
    | Except.error e => Except.error e
    | Except.ok st2 => processBlocks env rest st2

/-- The while loop of chat_completion (lines 283-359).  cur_content is the
content of current_response, whose raw blocks form the assistant echo.  The
loop runs while tool results are pending or the retry flag is set; unless
the flag is set it appends the assistant echo and the user message carrying
the tool results, then it clears the flag and the pending results, consumes
the next scripted response (an exhausted script models a raising client) and
processes its blocks.  acc accumulates all_responses. -/
def runLoop (env : OrchEnv) (script : List Response)
    (cur_content : List ContentBlock) (st : OrchSt) (acc : List Response) :
    Except String (OrchSt × List Response) :=
  if st.tool_results.isEmpty && !st.should_retry then Except.ok (st, acc)
  else
    match script with
    | [] => Except.error "mock remote client raised: script exhausted"
    | r :: rest =>
      match processBlocks env r.content
        { response_text := st.response_text, tool_results := [],
          counts := st.counts,
          conv :=
            if st.should_retry then st.conv
            else st.conv ++ [⟨"assistant", MsgContent.blocks cur_content⟩,
                             ⟨"user", MsgContent.results st.tool_results⟩],
          should_retry := false } with
      | Except.error e => Except.error e
      | Except.ok st3 => runLoop env rest r.content st3 (acc ++ [r])

/-- The configuration fields chat_completion reads: the model identifier and
the secrets mapping.  max_tokens and temperature only shape the request sent
to the mocked client and are elided. -/
structure CustomAddonConfig where
  model : String
  secrets : List (String × String)

/-- A prior-history message passed to chat_completion. -/
structure ChatMessage where
  role : String
  content : String

/-- The usage dictionary assembled at the end of a successful run. -/
structure UsageInfo where
  input_tokens : Nat
  output_tokens : Nat
  total_tokens : Nat

/-- The data a successful run of the try body of chat_completion produces:
accumulated text, all responses received in order, the assembled usage, the
stop_reason of the variable response (the first response, used on line 383),
and the final conversation and retry counter. -/
structure RunData where
  response_text : String
  all_responses : List Response
  usage_info : UsageInfo
  first_stop_reason : String
  conv : List Msg
  counts : RetryCounts

/-- The try body of chat_completion (lines 185-393): API-key checks,
conversation construction, the initial round, the unconditional clearing of
should_retry on line 282 after the initial blocks were processed, the tool
loop, and usage assembly (sums across rounds when more than one response was
received, the first round usage otherwise).  Except.error carries the str()
of a raised exception, caught by the top-level handler. -/
def chatCompletionRun (config : CustomAddonConfig) (message : String)
    (messages : List ChatMessage) (env : OrchEnv) (script : List Response) :
    Except String RunData :=
  match alistGet config.secrets "anthropic_api_key" with
  | Option.none => Except.error "KeyError: anthropic_api_key"
  | some api_key =>
    if api_key = "" then
      Except.error "Anthropic API key not found in credentials"
    else
      match script with
      | [] => Except.error "mock remote client raised: script exhausted"
      | response :: rest =>
        match processBlocks env response.content
          ⟨"", [], [],
           messages.map (fun m => (⟨m.role, MsgContent.text m.content⟩ : Msg))
             ++ [⟨"user", MsgContent.text message⟩], false⟩ with
        | Except.error e => Except.error e
        | Except.ok st1 =>
          match runLoop env rest response.content
            { st1 with should_retry := false } [response] with
          | Except.error e => Except.error e
          | Except.ok (stF, all_responses) =>
            Except.ok ⟨stF.response_text, all_responses,
              (if 1 < all_responses.length then
                ⟨(all_responses.map (fun r => r.usage.input_tokens)).sum,
                 (all_responses.map (fun r => r.usage.output_tokens)).sum,
                 (all_responses.map
                   (fun r => r.usage.input_tokens + r.usage.output_tokens)).sum⟩
              else
                ⟨response.usage.input_tokens, response.usage.output_tokens,
                 response.usage.input_tokens + response.usage.output_tokens⟩),
              response.stop_reason, stF.conv, stF.counts⟩

/-- Modelled from the spec: the output schema of the produced interface
(section 6), with fields matching ActionOutput of actions/base.py, a file
not present under src/. -/
structure ActionOutput where
  response : String
  model : String
  usage : UsageInfo
  stop_reason : Option String

/-- Modelled from the spec: token accounting of the action result schema
(actions/base.py is not present under src/). -/
structure TokensSchema where
  stepAmount : Nat
  totalCurrentAmount : Nat

/-- Modelled from the spec: the structured action result of the produced
interface, with status_code 200 on success and 500 on any caught failure
(actions/base.py is not present under src/). -/
structure ActionResponse where
  output : ActionOutput
  tokens : TokensSchema
  message : String
  code : Nat

/-- chat_completion (chat_completion.py lines 171-411): the try body wrapped
by the top-level except handler, which converts any exception into a
structured 500 result with zeroed usage, stop_reason error and response text
Error: str(e). -/
def chat_completion (config : CustomAddonConfig) (message : String)
    (messages : List ChatMessage) (env : OrchEnv) (script : List Response) :
    ActionResponse :=
  match chatCompletionRun config message messages env script with
  | Except.ok d =>
    ⟨⟨d.response_text, config.model, d.usage_info, some d.first_stop_reason⟩,
     ⟨d.usage_info.total_tokens, d.usage_info.total_tokens⟩,
     "Chat completion successful", 200⟩
  | Except.error e =>
    ⟨⟨"Error: " ++ e, config.model, ⟨0, 0, 0⟩, some "error"⟩, ⟨0, 0⟩,
     "Chat completion failed: " ++ e, 500⟩

/-- A parser oracle on which every parse attempt fails: it models json.loads
and ast.literal_eval on inputs they reject (both raise on the empty string
and on a bracketed fragment such as a lone opening bracket). -/
def noParse : String → Option PyVal := fun _ => Option.none

/-- Shared scenario configuration holding a non-empty API key. -/
def cfgA : CustomAddonConfig := ⟨"claude-3-5-sonnet-20241022", [("anthropic_api_key", "k")]⟩

/-- Tool-definition map advertising one tool named t with no parameters. -/
def toolsTD : List (String × ToolDef) := [("t", ⟨[]⟩)]

/-- Registry whose tool t always raises, with a retry budget of one. -/
def regC2 : RegistryIface :=
  specRegistry [("t", fun _ => Except.error "boom")] [("t", 1)] 3

/-- Environment for the initial-round retry scenario. -/
def envC2 : OrchEnv := ⟨toolsTD, some regC2, Option.none, Option.none, noParse, noParse⟩

/-- A response whose only block asks for tool t. -/
def respTU : Response :=
  ⟨[ContentBlock.tool_use "t" [] "id1"], ⟨1, 2⟩, "tool_use"⟩

/-- The run in which the only tool of the initial response signals RETRY and
no concrete tool-result block is produced. -/
def runC2 : Except String RunData := chatCompletionRun cfgA "hi" [] envC2 [respTU]

/-- Registry whose tool t2 returns the string 4, never retried. -/
def regC3 : RegistryIface :=
  specRegistry [("t2", fun _ => Except.ok (ToolRet.pystr "4"))] [] 0

/-- Environment for the two-round scenario. -/
def envC3 : OrchEnv :=
  ⟨[("t2", ⟨[]⟩)], some regC3, Option.none, Option.none, noParse, noParse⟩

/-- First-round response: one tool_use block, stop_reason tool_use. -/
def respC3a : Response :=
  ⟨[ContentBlock.tool_use "t2" [] "idA"], ⟨1, 1⟩, "tool_use"⟩

/-- Final-round response: one text block, stop_reason end_turn. -/
def respC3b : Response := ⟨[ContentBlock.text "done"], ⟨2, 3⟩, "end_turn"⟩

/-- A successful two-round run whose rounds carry distinct stop reasons. -/
def outC3 : ActionResponse :=
  chat_completion cfgA "hi" [] envC3 [respC3a, respC3b]

/-- The same two-round run, observed before the output is assembled. -/
def runC7 : Except String RunData :=
  chatCompletionRun cfgA "hi" [] envC3 [respC3a, respC3b]

/-- The run data of the two-round run (the run succeeds, so the fallback
default is never used). -/
def dC7 : RunData :=
  match runC7 with
  | Except.ok d => d
  | Except.error _ => ⟨"", [], ⟨0, 0, 0⟩, "", [], []⟩

/-- Registry whose tool t fails with a classified error result and has a
retry budget of zero. -/
def regC4 : RegistryIface :=
  specRegistry
    [("t", fun _ => Except.ok (ToolRet.pydict (some 500) (some "bad") "errdict"))]
    [("t", 0)] 0

/-- Registry whose tool t raises, with a retry budget of zero. -/
def regC4e : RegistryIface :=
  specRegistry [("t", fun _ => Except.error "x")] [("t", 0)] 0

/-- Environment for the exhausted-budget scenario. -/
def envC4 : OrchEnv := ⟨toolsTD, some regC4e, Option.none, Option.none, noParse, noParse⟩

/-- Registry with no tools registered. -/
def regC5 : RegistryIface := specRegistry [] [] 3

/-- Environment for the tool-not-found scenario. -/
def envC5 : OrchEnv := ⟨toolsTD, some regC5, Option.none, Option.none, noParse, noParse⟩

/-- An observer that raises exactly on success reports. -/
def obsC8 : Observer := fun c => if c.success then some "obsboom" else Option.none

/-- Registry whose tool t succeeds with the string ok, budget one. -/
def regC8 : RegistryIface :=
  specRegistry [("t", fun _ => Except.ok (ToolRet.pystr "ok"))] [("t", 1)] 1

/-- Environment in which both an observer and an addon id are supplied. -/
def envC8 : OrchEnv := ⟨toolsTD, some regC8, some obsC8, some "a", noParse, noParse⟩

/-- Schema declaring parameter p of type object with no default. -/
def psC9 : ParamSchema := ⟨some "object", Option.none⟩

/-- Tool map declaring tool t with the object-typed parameter p. -/
def toolsC9 : List (String × ToolDef) := [("t", ⟨[("p", psC9)]⟩)]

/-- Registry whose tool t returns Python None, budget two. -/
def regC10 : RegistryIface :=
  specRegistry [("t", fun _ => Except.ok ToolRet.pynone)] [("t", 2)] 2

/-- Environment for the None-returning-tool scenario. -/
def envC10 : OrchEnv := ⟨toolsTD, some regC10, Option.none, Option.none, noParse, noParse⟩

/-- An empty orchestration state used by witnesses. -/
def st0c : OrchSt := ⟨"", [], [], [], false⟩


theorem alistGet_set_self {α : Type} (l : List (String × α)) (k : String) (v : α) :
    alistGet (alistSet l k v) k = some v := by
  induction l with
  | nil => simp [alistSet, alistGet]
  | cons p rest ih =>
    by_cases h : p.1 = k
    · simp [alistSet, alistGet, h]
    · simpa [alistSet, alistGet, h] using ih

theorem alistGet_set_ne {α : Type} (l : List (String × α)) (k t : String) (v : α)
    (h : t ≠ k) : alistGet (alistSet l k v) t = alistGet l t := by
  have h2 : k ≠ t := Ne.symm h
  induction l with
  | nil => simp [alistSet, alistGet, h2]
  | cons p rest ih =>
    by_cases h3 : p.1 = k
    · simp [alistSet, alistGet, h3, h2]
    · by_cases h4 : p.1 = t <;> simp [alistSet, alistGet, h3, h4, h, ih]

theorem alistKeys_set {α : Type} (l : List (String × α)) (k : String) (v : α) :
    alistKeys (alistSet l k v) =
      if k ∈ alistKeys l then alistKeys l else alistKeys l ++ [k] := by
  induction l with
  | nil => simp [alistSet, alistKeys]
  | cons p rest ih =>
    by_cases h : p.1 = k
    · simp [alistSet, alistKeys, h]
    · have hne : ¬ k = p.1 := fun hh => h hh.symm
      simp only [alistSet, alistKeys, List.map, if_neg h] at ih ⊢
      rw [ih]
      by_cases h2 : k ∈ List.map Prod.fst rest
      · simp [List.mem_cons, hne, h2]
      · simp [List.mem_cons, hne, h2]

theorem rcGet_set_self (counts : RetryCounts) (k : String) (n : Nat) :
    rcGet (alistSet counts k n) k = n := by
  simp [rcGet, alistGet_set_self]

theorem rcGet_set_ne (counts : RetryCounts) (k t : String) (n : Nat) (h : t ≠ k) :
    rcGet (alistSet counts k n) t = rcGet counts t := by
  simp [rcGet, alistGet_set_ne _ _ _ _ h]

theorem sum_map_add {α : Type} (l : List α) (f g : α → Nat) :
    (l.map (fun x => f x + g x)).sum = (l.map f).sum + (l.map g).sum := by
  induction l with
  | nil => simp
  | cons x rest ih =>
    simp [ih]
    omega

theorem runLoop_acc_prefix (env : OrchEnv) :
    ∀ (script : List Response) (cur : List ContentBlock) (st : OrchSt)
      (acc : List Response) (st2 : OrchSt) (acc2 : List Response),
      runLoop env script cur st acc = Except.ok (st2, acc2) →
      ∃ t, acc2 = acc ++ t := by
  intro script
  induction script with
  | nil =>
    intro cur st acc st2 acc2 h
    unfold runLoop at h
    split at h
    · cases h
      exact ⟨[], by simp⟩
    · cases h
  | cons r rest ih =>
    intro cur st acc st2 acc2 h
    unfold runLoop at h
    dsimp only at h
    split at h
    · cases h
      exact ⟨[], by simp⟩
    · split at h
      · cases h
      · obtain ⟨t, ht⟩ := ih _ _ _ _ _ h
        exact ⟨r :: t, by simpa using ht⟩

/-- Claim C1: the Tool Registry offers a get_max_retries operation returning
an integer for every tool name, so that the call made on line 101 of
_execute_tool_with_retries succeeds on every ToolRegistry instance.  This
fails: class ToolRegistry defines no get_max_retries method or attribute, so
the attribute access raises AttributeError on every instance and for every
name, and the very first step of the adapter propagates the exception. -/
theorem C1_get_max_retries_missing (r : ToolRegistry)
    (tools : List (String × ToolDef)) (obs : Option Observer)
    (aid : Option String) (jl lv : String → Option PyVal)
    (name : String) (input : PyDict) (counts : RetryCounts) (conv : List Msg) :
    execToolWithRetries r.iface tools obs aid jl lv name input counts conv =
      ⟨Except.error "AttributeError: ToolRegistry object has no attribute get_max_retries",
       counts, conv, []⟩ := by
  rfl

/-- Claim C2: a RETRY signalled while the initial response is processed,
with no concrete tool-result block produced, is claimed to force at least a
second round-trip.  This fails: with the one-response script of runC2 the
retry flag raised during initial-block processing is overwritten by the
unconditional clearing on line 282, so the run ends after a single
round-trip even though the retry counter of tool t shows the retry was
requested. -/
theorem C2_initial_retry_lost :
    runC2.map (fun d => (d.all_responses.length, rcGet d.counts "t")) =
      Except.ok (1, 1) := by
  rfl

/-- Claim C3: the returned stop_reason is claimed to be that of the final
round.  This fails: the two-round run outC3 receives stop_reason tool_use in
round one and end_turn in round two, succeeds with code 200, and reports the
first stop_reason, because line 383 reads response.stop_reason rather than
current_response.stop_reason. -/
theorem C3_stop_reason_is_first_round :
    outC3.code = 200 ∧ outC3.output.stop_reason = some "tool_use" ∧
      "tool_use" ≠ "end_turn" := by
  refine ⟨rfl, rfl, by decide⟩

theorem notify_fst_ok (obs : Option Observer) (aid : Option String)
    (c : ObsCall) (hobs : ∀ (o : Observer) (c2 : ObsCall), obs = some o → o c2 = Option.none) :
    (notifyObserver obs aid c).1 = Except.ok () := by
  cases obs with
  | none => rfl
  | some o =>
    simp only [notifyObserver]
    rw [hobs o c rfl]
    by_cases h : optTruthy aid = true <;> simp [h]

theorem adapterExcept_exhausted (obs : Option Observer) (aid : Option String)
    (name : String) (parsed : PyDict) (cur m : Nat) (counts : RetryCounts)
    (conv : List Msg) (em : String) (tr0 : List ObsCall)
    (hn : (notifyObserver obs aid ⟨name, aid.getD "", parsed, Option.none,
      false, some em, cur, m⟩).1 = Except.ok ())
    (h : m ≤ cur) :
    (adapterExcept obs aid name parsed cur m counts conv em tr0).result =
      Except.ok (ToolRet.pynone, some em) ∧
    (adapterExcept obs aid name parsed cur m counts conv em tr0).counts = counts ∧
    (adapterExcept obs aid name parsed cur m counts conv em tr0).conv = conv := by
  simp only [adapterExcept]
  rw [hn]
  simp [h]

theorem adapterExcept_retry (obs : Option Observer) (aid : Option String)
    (name : String) (parsed : PyDict) (cur m : Nat) (counts : RetryCounts)
    (conv : List Msg) (em : String) (tr0 : List ObsCall)
    (hn : (notifyObserver obs aid ⟨name, aid.getD "", parsed, Option.none,
      false, some em, cur, m⟩).1 = Except.ok ())
    (h : cur < m) :
    (adapterExcept obs aid name parsed cur m counts conv em tr0).result =
      Except.ok (ToolRet.pystr "RETRY", some em) ∧
    (adapterExcept obs aid name parsed cur m counts conv em tr0).counts =
      alistSet counts name (cur + 1) ∧
    (adapterExcept obs aid name parsed cur m counts conv em tr0).conv =
      conv ++ [retryGuidanceMsg name em] := by
  simp only [adapterExcept]
  rw [hn]
  simp [Nat.not_le.mpr h]

/-- Claim C5: for a tool_use block whose name is not registered,
_execute_tool_with_retries returns the pair (None, Tool name not found)
without touching the retry counter or the conversation and without invoking
the observer, the orchestrator appends a tool-result block whose content
carries the not-found message, and block processing returns normally so the
run continues.  Confirmed; the get_max_retries hypothesis reflects a
registry honouring the spec contract absent from the class. -/
theorem C5_tool_not_found (env : OrchEnv) (reg : RegistryIface) (name : String)
    (input : PyDict) (counts : RetryCounts) (conv : List Msg) (m : Nat)
    (hreg : env.registry = some reg)
    (hm : reg.get_max_retries name = Except.ok m)
    (hfun : reg.get_function name = Option.none) :
    adapterOf env reg name input counts conv =
      ⟨Except.ok (ToolRet.pynone, some ("Tool " ++ name ++ " not found")),
       counts, conv, []⟩ ∧
    ∀ (st : OrchSt) (bid : String),
      processBlock env st (ContentBlock.tool_use name input bid) =
        Except.ok { st with tool_results := st.tool_results ++
          [⟨bid, "Error executing tool: " ++ ("Tool " ++ name ++ " not found")⟩] } := by
  have hadapt : ∀ (counts2 : RetryCounts) (conv2 : List Msg),
      adapterOf env reg name input counts2 conv2 =
        ⟨Except.ok (ToolRet.pynone, some ("Tool " ++ name ++ " not found")),
         counts2, conv2, []⟩ := by
    intro counts2 conv2
    simp only [adapterOf, execToolWithRetries, hm, hfun]
  refine ⟨hadapt counts conv, ?_⟩
  intro st bid
  simp only [processBlock, hreg, hadapt st.counts st.conv]
  simp [isRetrySentinel, isPyNone, optMsgStr]

/-- Witness for C5 at a concrete input: the empty registry regC5 with the
unregistered tool name ghost. -/
theorem C5_witness :
    adapterOf envC5 regC5 "ghost" [] [] [] =
      ⟨Except.ok (ToolRet.pynone, some ("Tool " ++ "ghost" ++ " not found")),
       [], [], []⟩ ∧
    processBlock envC5 st0c (ContentBlock.tool_use "ghost" [] "idN") =
      Except.ok { st0c with tool_results :=
        [⟨"idN", "Error executing tool: " ++ ("Tool " ++ "ghost" ++ " not found")⟩] } := by
  have h := C5_tool_not_found envC5 regC5 "ghost" [] [] [] 3 rfl rfl rfl
  refine ⟨h.1, ?_⟩
  have h2 := h.2 st0c "idN"
  simpa [st0c] using h2

/-- Claim C10: a registered tool that raises no exception, is classified
successful and returns Python None yields the adapter pair (None, None); the
orchestrator then takes the error branch, appending a tool-result block with
content Error executing tool: None rather than the str() of the output, so a
successful None return is indistinguishable from a terminal failure.
Confirmed. -/
theorem C10_none_success_becomes_error_block (env : OrchEnv)
    (reg : RegistryIface) (name : String) (input : PyDict)
    (counts : RetryCounts) (conv : List Msg) (m : Nat) (f : ToolFunction)
    (hreg : env.registry = some reg)
    (hm : reg.get_max_retries name = Except.ok m)
    (hf : reg.get_function name = some f)
    (hres : f (parse_tool_input env.jloads env.lival input name env.tools) =
      Except.ok ToolRet.pynone)
    (hobs : ∀ (o : Observer) (c : ObsCall), env.observer = some o → o c = Option.none) :
    (adapterOf env reg name input counts conv).result =
      Except.ok (ToolRet.pynone, Option.none) ∧
    (∀ (st : OrchSt) (bid : String),
      processBlock env st (ContentBlock.tool_use name input bid) =
        Except.ok { st with tool_results :=
          st.tool_results ++ [⟨bid, "Error executing tool: None"⟩] }) ∧
    "Error executing tool: None" ≠ pyStr ToolRet.pynone := by
  have hadapt : ∀ (counts2 : RetryCounts) (conv2 : List Msg),
      (adapterOf env reg name input counts2 conv2).result =
        Except.ok (ToolRet.pynone, Option.none) ∧
      (adapterOf env reg name input counts2 conv2).counts = counts2 ∧
      (adapterOf env reg name input counts2 conv2).conv = conv2 := by
    intro counts2 conv2
    simp only [adapterOf, execToolWithRetries, hm, hf, hres]
    rw [notify_fst_ok _ _ _ hobs]
    simp [determine_tool_success]
  refine ⟨(hadapt counts conv).1, ?_, by decide⟩
  intro st bid
  obtain ⟨h1, h2, h3⟩ := hadapt st.counts st.conv
  simp only [processBlock, hreg, h1]
  simp only [isRetrySentinel, isPyNone, Bool.not_true]
  simp [h2, h3, optMsgStr]

/-- Witness for C10 at a concrete input: registry regC10, whose tool t
returns None with no raised exception and no failure code. -/
theorem C10_witness :
    processBlock envC10 st0c (ContentBlock.tool_use "t" [] "idZ") =
      Except.ok { st0c with tool_results :=
        [⟨"idZ", "Error executing tool: None"⟩] } := by
  have h := C10_none_success_becomes_error_block envC10 regC10 "t" [] [] [] 2
    (fun _ => Except.ok ToolRet.pynone) rfl rfl rfl rfl
    (by intro o c hc; cases hc)
  have h2 := h.2.1 st0c "idZ"
  simpa [st0c] using h2

/-- Counterexample to claim C4 as stated: with retry budget 0 exhausted, the
tool of regC4 fails with a classified error (code 500, message bad), yet the
adapter returns the failed result value itself paired with the message, not
the pair (None, error_message) the claim asserts for every terminal
failure. -/
theorem C4_counterexample :
    (execToolWithRetries regC4 toolsTD Option.none Option.none noParse noParse
        "t" [] [] []).result =
      Except.ok (ToolRet.pydict (some 500) (some "bad") "errdict", some "bad") ∧
    ToolRet.pydict (some 500) (some "bad") "errdict" ≠ ToolRet.pynone := by
  exact ⟨rfl, by decide⟩

/-- Claim C4 (amended): with a registry honouring the spec budget contract
and a non-raising observer, one adapter call never pushes the retry counter
of the dispatched tool above its budget m and leaves every other counter
unchanged; and once the counter has reached m a further failure is terminal:
a raised exception yields (None, error_message) with counter and
conversation untouched, and the orchestrator appends a tool-result block
carrying the error text, while a classified failure terminally returns the
failed result value with its extracted message (not (None, error_message)).
The RETRY sentinel is issued only below the budget. -/
theorem C4_retry_budget (env : OrchEnv) (reg : RegistryIface) (name : String)
    (input : PyDict) (m : Nat)
    (hreg : env.registry = some reg)
    (hm : reg.get_max_retries name = Except.ok m)
    (hobs : ∀ (o : Observer) (c : ObsCall), env.observer = some o → o c = Option.none) :
    (∀ (counts : RetryCounts) (conv : List Msg),
      (rcGet counts name ≤ m →
        rcGet (adapterOf env reg name input counts conv).counts name ≤ m) ∧
      (∀ t, t ≠ name →
        rcGet (adapterOf env reg name input counts conv).counts t = rcGet counts t)) ∧
    (∀ (f : ToolFunction), reg.get_function name = some f →
      (∀ (em : String) (counts : RetryCounts) (conv : List Msg),
        m ≤ rcGet counts name →
        f (parse_tool_input env.jloads env.lival input name env.tools) =
          Except.error em →
        (adapterOf env reg name input counts conv).result =
          Except.ok (ToolRet.pynone, some em) ∧
        (adapterOf env reg name input counts conv).counts = counts ∧
        (adapterOf env reg name input counts conv).conv = conv) ∧
      (∀ (r : ToolRet) (counts : RetryCounts) (conv : List Msg),
        m ≤ rcGet counts name →
        f (parse_tool_input env.jloads env.lival input name env.tools) =
          Except.ok r →
        determine_tool_success r = false →
        (adapterOf env reg name input counts conv).result =
          Except.ok (r, extract_error_message r)) ∧
      (∀ (em : String) (st : OrchSt) (bid : String),
        m ≤ rcGet st.counts name →
        f (parse_tool_input env.jloads env.lival input name env.tools) =
          Except.error em →
        processBlock env st (ContentBlock.tool_use name input bid) =
          Except.ok { st with tool_results :=
            st.tool_results ++ [⟨bid, "Error executing tool: " ++ em⟩] })) := by
  have hno : ∀ (c : ObsCall),
      (notifyObserver env.observer env.addon_id c).1 = Except.ok () :=
    fun c => notify_fst_ok _ _ _ hobs
  have hcounts : ∀ (counts : RetryCounts) (conv : List Msg),
      (adapterOf env reg name input counts conv).counts = counts ∨
      (rcGet counts name < m ∧
        (adapterOf env reg name input counts conv).counts =
          alistSet counts name (rcGet counts name + 1)) := by
    intro counts conv
    cases hgf : reg.get_function name with
    | none =>
      left
      simp only [adapterOf, execToolWithRetries, hm, hgf]
    | some f =>
      cases hfp : f (parse_tool_input env.jloads env.lival input name env.tools) with
      | error e =>
        by_cases hcur : m ≤ rcGet counts name
        · left
          simp only [adapterOf, execToolWithRetries, hm, hgf, hfp]
          exact (adapterExcept_exhausted _ _ _ _ _ _ _ _ _ _ (notify_fst_ok _ _ _ hobs) hcur).2.1
        · right
          refine ⟨Nat.lt_of_not_le hcur, ?_⟩
          simp only [adapterOf, execToolWithRetries, hm, hgf, hfp]
          exact (adapterExcept_retry _ _ _ _ _ _ _ _ _ [] (notify_fst_ok _ _ _ hobs)
            (Nat.lt_of_not_le hcur)).2.1
      | ok r =>
        cases hsucc : determine_tool_success r with
        | true =>
          left
          simp only [adapterOf, execToolWithRetries, hm, hgf, hfp]
          rw [hno]
          simp [hsucc]
        | false =>
          by_cases hcur : m ≤ rcGet counts name
          · left
            simp only [adapterOf, execToolWithRetries, hm, hgf, hfp]
            rw [hno]
            simp [hsucc, hcur]
          · right
            refine ⟨Nat.lt_of_not_le hcur, ?_⟩
            simp only [adapterOf, execToolWithRetries, hm, hgf, hfp]
            rw [hno]
            cases hext : extract_error_message r with
            | none => simp [hsucc, hcur, hext]
            | some em => by_cases hem : em = "" <;> simp [hsucc, hcur, hext, hem]
  constructor
  · intro counts conv
    constructor
    · intro hb
      rcases hcounts counts conv with h | ⟨hlt, hset⟩
      · rw [h]; exact hb
      · rw [hset, rcGet_set_self]; omega
    · intro t ht
      rcases hcounts counts conv with h | ⟨hlt, hset⟩
      · rw [h]
      · rw [hset, rcGet_set_ne _ _ _ _ ht]
  · intro f hf
    have hterm : ∀ (em : String) (counts : RetryCounts) (conv : List Msg),
        m ≤ rcGet counts name →
        f (parse_tool_input env.jloads env.lival input name env.tools) =
          Except.error em →
        (adapterOf env reg name input counts conv).result =
          Except.ok (ToolRet.pynone, some em) ∧
        (adapterOf env reg name input counts conv).counts = counts ∧
        (adapterOf env reg name input counts conv).conv = conv := by
      intro em counts conv hcur hfp
      have he := adapterExcept_exhausted env.observer env.addon_id name
        (parse_tool_input env.jloads env.lival input name env.tools)
        (rcGet counts name) m counts conv em [] (notify_fst_ok _ _ _ hobs) hcur
      simp only [adapterOf, execToolWithRetries, hm, hf, hfp]
      exact he
    refine ⟨hterm, ?_, ?_⟩
    · intro r counts conv hcur hfp hfail
      simp only [adapterOf, execToolWithRetries, hm, hf, hfp]
      rw [hno]
      simp [hfail, hcur]
    · intro em st bid hcur hfp
      obtain ⟨h1, h2, h3⟩ := hterm em st.counts st.conv hcur hfp
      simp only [processBlock, hreg, h1]
      simp only [isRetrySentinel, isPyNone, Bool.not_true]
      simp [h2, h3, optMsgStr]

/-- Witness for C4 at a concrete input: registry regC4e, whose tool t raises
with budget 0 already exhausted, yields the terminal pair (None, x). -/
theorem C4_witness :
    (adapterOf envC4 regC4e "t" [] [] []).result =
      Except.ok (ToolRet.pynone, some "x") := by
  have h := C4_retry_budget envC4 regC4e "t" [] 0 rfl rfl
    (by intro o c hc; cases hc)
  exact ((h.2 (fun _ => Except.error "x") rfl).1 "x" [] []
    (by simp [rcGet, alistGet]) rfl).1

theorem notifyObserver_skipped (obs : Option Observer) (aid : Option String)
    (c : ObsCall) (h : obs = Option.none ∨ optTruthy aid = false) :
    notifyObserver obs aid c = (Except.ok (), []) := by
  cases obs with
  | none => rfl
  | some o =>
    rcases h with h | h
    · cases h
    · simp [notifyObserver, h]

/-- Counterexample to claim C8 as stated: the tool t of regC8 succeeds with
the string ok, but the observer obsC8 raises on the success report; the
raised exception is caught by the adapter tool-failure handler, so the
adapter answers with the RETRY sentinel carrying the observer message
instead of returning the successful raw result with no error, after
invoking the observer twice. -/
theorem C8_counterexample :
    (execToolWithRetries regC8 toolsTD (some obsC8) (some "a") noParse noParse
        "t" [] [] []).result =
      Except.ok (ToolRet.pystr "RETRY", some "obsboom") ∧
    (execToolWithRetries regC8 toolsTD (some obsC8) (some "a") noParse noParse
        "t" [] [] []).obs_calls.length = 2 ∧
    ToolRet.pystr "RETRY" ≠ ToolRet.pystr "ok" := by
  exact ⟨rfl, rfl, by decide⟩

/-- Claim C8 (amended): the observer is invoked only when both an observer
and a truthy addon identifier are supplied — otherwise the adapter makes no
observer call; but an exception raised by the observer while reporting a
success is not isolated: it is caught by the adapter exception handler and,
below the retry budget and with the failure-path report returning normally,
it converts the successful invocation into a RETRY outcome carrying the
observer message, incrementing the retry counter and appending retry
guidance. -/
theorem C8_observer (env : OrchEnv) (reg : RegistryIface) (name : String)
    (input : PyDict) :
    (∀ (counts : RetryCounts) (conv : List Msg),
      env.observer = Option.none ∨ optTruthy env.addon_id = false →
      (adapterOf env reg name input counts conv).obs_calls = []) ∧
    (∀ (counts : RetryCounts) (conv : List Msg) (m : Nat) (f : ToolFunction)
       (o : Observer) (r : ToolRet) (emsg : String),
      reg.get_max_retries name = Except.ok m →
      reg.get_function name = some f →
      f (parse_tool_input env.jloads env.lival input name env.tools) =
        Except.ok r →
      determine_tool_success r = true →
      env.observer = some o →
      optTruthy env.addon_id = true →
      o ⟨name, env.addon_id.getD "",
         parse_tool_input env.jloads env.lival input name env.tools,
         some r, true, Option.none, rcGet counts name, m⟩ = some emsg →
      o ⟨name, env.addon_id.getD "",
         parse_tool_input env.jloads env.lival input name env.tools,
         Option.none, false, some emsg, rcGet counts name, m⟩ = Option.none →
      rcGet counts name < m →
      (adapterOf env reg name input counts conv).result =
        Except.ok (ToolRet.pystr "RETRY", some emsg) ∧
      (adapterOf env reg name input counts conv).counts =
        alistSet counts name (rcGet counts name + 1) ∧
      (adapterOf env reg name input counts conv).conv =
        conv ++ [retryGuidanceMsg name emsg]) := by
  constructor
  · intro counts conv hno
    have hskip : ∀ (c : ObsCall),
        notifyObserver env.observer env.addon_id c = (Except.ok (), []) :=
      fun c => notifyObserver_skipped _ _ _ hno
    cases hgm : reg.get_max_retries name with
    | error e => simp only [adapterOf, execToolWithRetries, hgm]
    | ok m =>
      cases hgf : reg.get_function name with
      | none => simp only [adapterOf, execToolWithRetries, hgm, hgf]
      | some f =>
        cases hfp : f (parse_tool_input env.jloads env.lival input name env.tools) with
        | error e =>
          simp only [adapterOf, execToolWithRetries, hgm, hgf, hfp, adapterExcept, hskip]
          split <;> simp
        | ok r =>
          simp only [adapterOf, execToolWithRetries, hgm, hgf, hfp, hskip]
          split
          · rfl
          · split
            · split <;> rfl
            · rfl
  · intro counts conv m f o r emsg hm hf hr hsucc ho ht h1 h2 hcur
    simp only [adapterOf, execToolWithRetries, hm, hf, hr, ho, hsucc,
      notifyObserver, ht, adapterExcept]
    simp [Nat.not_le.mpr hcur, h1, h2]

/-- Witness for C8 at a concrete input: no calls are made without an addon
id, and with envC8 the raising observer turns the success of tool t into a
RETRY carrying obsboom. -/
theorem C8_witness :
    (adapterOf ⟨toolsTD, some regC8, some obsC8, Option.none, noParse, noParse⟩
        regC8 "t" [] [] []).obs_calls = [] ∧
    (adapterOf envC8 regC8 "t" [] [] []).result =
      Except.ok (ToolRet.pystr "RETRY", some "obsboom") := by
  constructor
  · exact (C8_observer ⟨toolsTD, some regC8, some obsC8, Option.none, noParse,
      noParse⟩ regC8 "t" []).1 [] [] (Or.inr rfl)
  · exact ((C8_observer envC8 regC8 "t" []).2 [] [] 1
      (fun _ => Except.ok (ToolRet.pystr "ok")) obsC8 (ToolRet.pystr "ok")
      "obsboom" rfl rfl rfl rfl rfl rfl rfl rfl (by decide)).1

/-- Claim C6: every invocation of chat_completion either succeeds (the try
body returns run data) with status code 200, or the raised exception is
caught at the top level and converted into a structured result with code
500, response text Error: str(e), all-zero usage and stop_reason error; no
fault escapes, since chat_completion is a total function into
ActionResponse.  Confirmed. -/
theorem C6_boundary_conversion (config : CustomAddonConfig) (message : String)
    (messages : List ChatMessage) (env : OrchEnv) (script : List Response) :
    (∃ d, chatCompletionRun config message messages env script = Except.ok d ∧
      (chat_completion config message messages env script).code = 200) ∨
    (∃ e, chatCompletionRun config message messages env script = Except.error e ∧
      (chat_completion config message messages env script).code = 500 ∧
      (chat_completion config message messages env script).output.response =
        "Error: " ++ e ∧
      (chat_completion config message messages env script).output.usage =
        ⟨0, 0, 0⟩ ∧
      (chat_completion config message messages env script).output.stop_reason =
        some "error") := by
  cases h : chatCompletionRun config message messages env script with
  | ok d => exact Or.inl ⟨d, rfl, by simp [chat_completion, h]⟩
  | error e => exact Or.inr ⟨e, rfl, by simp [chat_completion, h]⟩

/-- Claim C7: on every successful run the returned usage satisfies
total_tokens = input_tokens + output_tokens; with more than one round-trip
input and output tokens are the sums of the per-round values over all
responses, and with a single round they are that round's values.
Confirmed. -/
theorem C7_usage_accounting (config : CustomAddonConfig) (message : String)
    (messages : List ChatMessage) (env : OrchEnv) (script : List Response)
    (d : RunData)
    (h : chatCompletionRun config message messages env script = Except.ok d) :
    d.usage_info.total_tokens =
      d.usage_info.input_tokens + d.usage_info.output_tokens ∧
    (1 < d.all_responses.length →
      d.usage_info.input_tokens =
        (d.all_responses.map (fun r => r.usage.input_tokens)).sum ∧
      d.usage_info.output_tokens =
        (d.all_responses.map (fun r => r.usage.output_tokens)).sum) ∧
    (∀ r0, d.all_responses = [r0] →
      d.usage_info.input_tokens = r0.usage.input_tokens ∧
      d.usage_info.output_tokens = r0.usage.output_tokens) := by
  unfold chatCompletionRun at h
  split at h
  · cases h
  · split at h
    · cases h
    · split at h
      · cases h
      · rename_i response rest
        split at h
        · cases h
        · rename_i st1 hpb
          split at h
          · cases h
          · rename_i stF allr hloop
            obtain ⟨tail, htail⟩ := runLoop_acc_prefix env rest response.content
              { st1 with should_retry := false } [response] stF allr hloop
            cases h
            by_cases hlen : 1 < allr.length
            · rw [if_pos hlen]
              refine ⟨sum_map_add allr _ _, fun _ => ⟨rfl, rfl⟩, ?_⟩
              intro r0 hr0
              have hall : allr = [r0] := hr0
              rw [hall] at hlen
              simp at hlen
            · rw [if_neg hlen]
              refine ⟨rfl, fun hc => absurd hc hlen, ?_⟩
              intro r0 hr0
              have hall : allr = [r0] := hr0
              rw [hall] at htail
              have hresp : response = r0 := by
                cases tail with
                | nil => simpa using htail.symm
                | cons a t2 => simp at htail
              rw [← hresp]
              exact ⟨rfl, rfl⟩

/-- Witness for C7 at a concrete input: the two-round run dC7 has usage
3 + 4 = 7 summed across both rounds. -/
theorem C7_witness :
    dC7.usage_info.total_tokens =
      dC7.usage_info.input_tokens + dC7.usage_info.output_tokens ∧
    dC7.usage_info.input_tokens = 3 ∧ dC7.usage_info.output_tokens = 4 := by
  have h := C7_usage_accounting cfgA "hi" [] envC3 [respC3a, respC3b] dC7 rfl
  refine ⟨h.1, ?_, ?_⟩
  · rw [(h.2.1 (by decide)).1]
    rfl
  · rw [(h.2.1 (by decide)).2]
    rfl

theorem self_mem_alistKeys_set {α : Type} (l : List (String × α)) (k : String)
    (v : α) : k ∈ alistKeys (alistSet l k v) := by
  rw [alistKeys_set]
  split
  · assumption
  · simp

theorem coerceParam_keys (jl lv : String → Option PyVal)
    (props : List (String × ParamSchema)) (parsed : PyDict) (k : String)
    (v : PyVal) :
    alistKeys (coerceParam jl lv props parsed (k, v)) =
      alistKeys (alistSet parsed k v) := by
  have hset : ∀ (w : PyVal),
      alistKeys (alistSet (alistSet parsed k v) k w) =
        alistKeys (alistSet parsed k v) := by
    intro w
    rw [alistKeys_set, if_pos (self_mem_alistKeys_set parsed k v)]
  simp only [coerceParam]
  repeat' split
  all_goals first | rfl | exact hset _

theorem coerceParam_get_ne (jl lv : String → Option PyVal)
    (props : List (String × ParamSchema)) (parsed : PyDict) (k : String)
    (v : PyVal) (q : String) (h : q ≠ k) :
    alistGet (coerceParam jl lv props parsed (k, v)) q = alistGet parsed q := by
  have h1 : alistGet (alistSet parsed k v) q = alistGet parsed q :=
    alistGet_set_ne _ _ _ _ h
  have h2 : ∀ (w : PyVal),
      alistGet (alistSet (alistSet parsed k v) k w) q = alistGet parsed q := by
    intro w
    rw [alistGet_set_ne _ _ _ _ h, h1]
  simp only [coerceParam]
  repeat' split
  all_goals first | exact h1 | exact h2 _

theorem coerceParam_passthrough (jl lv : String → Option PyVal)
    (props : List (String × ParamSchema)) (parsed : PyDict) (k s : String)
    (psch : ParamSchema)
    (hp : alistGet props k = some psch)
    (hty : psch.type? = some "object" ∨ psch.type? = some "array")
    (hsw : (strStartsWithChar (pyStrip s) braceChar ||
      strStartsWithChar (pyStrip s) bracketChar) = true)
    (hjl : jl s = Option.none) (hlv : lv s = Option.none) :
    coerceParam jl lv props parsed (k, PyVal.str s) =
      alistSet parsed k (PyVal.str s) := by
  simp only [coerceParam, hp]
  rw [if_pos hty, if_pos hsw]
  simp [hjl, hlv]

theorem fold_coerce_get_ne (jl lv : String → Option PyVal)
    (props : List (String × ParamSchema)) :
    ∀ (l : PyDict) (parsed : PyDict) (q : String),
      q ∉ alistKeys l →
      alistGet (l.foldl (coerceParam jl lv props) parsed) q =
        alistGet parsed q := by
  intro l
  induction l with
  | nil => intro parsed q _; rfl
  | cons p rest ih =>
    intro parsed q hq
    have hq1 : q ≠ p.1 := by
      intro hk
      exact hq (by simp [alistKeys, hk])
    have hq2 : q ∉ alistKeys rest := by
      intro hk
      exact hq (by simp [alistKeys] at hk ⊢; exact Or.inr hk)
    calc alistGet ((p :: rest).foldl (coerceParam jl lv props) parsed) q
        = alistGet (rest.foldl (coerceParam jl lv props)
            (coerceParam jl lv props parsed p)) q := rfl
      _ = alistGet (coerceParam jl lv props parsed p) q := ih _ q hq2
      _ = alistGet parsed q := coerceParam_get_ne jl lv props parsed p.1 p.2 q hq1

theorem fold_coerce_keys (jl lv : String → Option PyVal)
    (props : List (String × ParamSchema)) :
    ∀ (l : PyDict) (parsed : PyDict),
      (∀ k, k ∈ alistKeys l → k ∉ alistKeys parsed) →
      (alistKeys l).Nodup →
      alistKeys (l.foldl (coerceParam jl lv props) parsed) =
        alistKeys parsed ++ alistKeys l := by
  intro l
  induction l with
  | nil => intro parsed _ _; simp [alistKeys]
  | cons p rest ih =>
    intro parsed hdisj hnd
    have hnd0 := List.nodup_cons.mp
      (show (p.1 :: alistKeys rest).Nodup from hnd)
    have hk : p.1 ∉ alistKeys parsed :=
      hdisj p.1 (by simp [alistKeys])
    have hkeys : alistKeys (coerceParam jl lv props parsed p) =
        alistKeys parsed ++ [p.1] := by
      rw [show p = (p.1, p.2) from rfl, coerceParam_keys,
        alistKeys_set, if_neg hk]
    have hdisj2 : ∀ k, k ∈ alistKeys rest →
        k ∉ alistKeys (coerceParam jl lv props parsed p) := by
      intro k hkr
      rw [hkeys]
      intro hmem
      rcases List.mem_append.mp hmem with hmem | hmem
      · exact hdisj k (by simp [alistKeys] at hkr ⊢; exact Or.inr hkr) hmem
      · have hkp : k = p.1 := by simpa using hmem
        exact hnd0.1 (hkp ▸ hkr)
    calc alistKeys ((p :: rest).foldl (coerceParam jl lv props) parsed)
        = alistKeys (rest.foldl (coerceParam jl lv props)
            (coerceParam jl lv props parsed p)) := rfl
      _ = alistKeys (coerceParam jl lv props parsed p) ++ alistKeys rest :=
          ih _ hdisj2 hnd0.2
      _ = (alistKeys parsed ++ [p.1]) ++ alistKeys rest := by rw [hkeys]
      _ = alistKeys parsed ++ alistKeys (p :: rest) := by
          simp [alistKeys]

theorem fold_coerce_passthrough (jl lv : String → Option PyVal)
    (props : List (String × ParamSchema)) :
    ∀ (l : PyDict) (parsed : PyDict) (param s : String) (psch : ParamSchema),
      (param, PyVal.str s) ∈ l →
      (alistKeys l).Nodup →
      alistGet props param = some psch →
      (psch.type? = some "object" ∨ psch.type? = some "array") →
      (strStartsWithChar (pyStrip s) braceChar ||
        strStartsWithChar (pyStrip s) bracketChar) = true →
      jl s = Option.none → lv s = Option.none →
      alistGet (l.foldl (coerceParam jl lv props) parsed) param =
        some (PyVal.str s) := by
  intro l
  induction l with
  | nil => intro parsed param s psch hmem; cases hmem
  | cons p rest ih =>
    intro parsed param s psch hmem hnd hp hty hsw hjl hlv
    have hnd0 := List.nodup_cons.mp
      (show (p.1 :: alistKeys rest).Nodup from hnd)
    rcases List.mem_cons.mp hmem with hmem | hmem
    · have hfirst : coerceParam jl lv props parsed p =
          alistSet parsed param (PyVal.str s) := by
        rw [← hmem]
        exact coerceParam_passthrough jl lv props parsed param s psch
          hp hty hsw hjl hlv
      have hnk : param ∉ alistKeys rest := by
        have : p.1 = param := by rw [← hmem]
        exact this ▸ hnd0.1
      calc alistGet ((p :: rest).foldl (coerceParam jl lv props) parsed) param
          = alistGet (rest.foldl (coerceParam jl lv props)
              (coerceParam jl lv props parsed p)) param := rfl
        _ = alistGet (coerceParam jl lv props parsed p) param :=
            fold_coerce_get_ne jl lv props rest _ param hnk
        _ = some (PyVal.str s) := by rw [hfirst, alistGet_set_self]
    · exact ih (coerceParam jl lv props parsed p) param s psch hmem
        hnd0.2 hp hty hsw hjl hlv

/-- Counterexample to claim C9 as stated: the empty string fails both strict
JSON parsing and permissive literal-expression parsing (both parsers raise
on it, modelled by noParse), yet a parameter of declared type object
carrying the empty string is not passed through unchanged: the null-token
branch replaces it with Python None when the schema declares no default. -/
theorem C9_counterexample :
    parse_tool_input noParse noParse [("p", PyVal.str "")] "t" toolsC9 =
      [("p", PyVal.none)] ∧
    PyVal.none ≠ PyVal.str "" := by
  exact ⟨rfl, fun h => by cases h⟩

/-- Claim C9 (amended): _parse_tool_input is total by construction (its
embedding is a function, mirroring that every parse failure is caught); it
preserves the key set of any duplicate-free input mapping; and when a
parameter declared object or array carries a string value whose trimmed
form starts with an opening brace or bracket and both strict JSON parsing
and permissive literal-expression parsing fail, the original string value
is passed through unchanged (the warning is only logged).  Trimmed values
null, None and the empty string take the null-replacement branch instead of
the pass-through. -/
theorem C9_coercion_passthrough (jl lv : String → Option PyVal)
    (tool_input : PyDict) (tool_name : String)
    (tools : List (String × ToolDef))
    (hnd : (alistKeys tool_input).Nodup) :
    alistKeys (parse_tool_input jl lv tool_input tool_name tools) =
      alistKeys tool_input ∧
    (∀ (param s : String) (td : ToolDef) (psch : ParamSchema),
      (param, PyVal.str s) ∈ tool_input →
      alistGet tools tool_name = some td →
      alistGet td.properties param = some psch →
      (psch.type? = some "object" ∨ psch.type? = some "array") →
      (strStartsWithChar (pyStrip s) braceChar ||
        strStartsWithChar (pyStrip s) bracketChar) = true →
      jl s = Option.none → lv s = Option.none →
      alistGet (parse_tool_input jl lv tool_input tool_name tools) param =
        some (PyVal.str s)) := by
  constructor
  · cases hti : tool_input with
    | nil => rfl
    | cons p rest =>
      cases hlk : alistGet tools tool_name with
      | none => simp [parse_tool_input, hlk]
      | some td =>
        cases hpr : td.properties with
        | nil => simp [parse_tool_input, hlk, hpr]
        | cons q qs =>
          have hnd2 : (alistKeys (p :: rest)).Nodup := hti ▸ hnd
          have hkeys := fold_coerce_keys jl lv td.properties (p :: rest) []
            (by intro k _ hk; simp [alistKeys] at hk) hnd2
          simp only [parse_tool_input, hlk, hpr]
          rw [hpr] at hkeys
          simpa [alistKeys] using hkeys
  · intro param s td psch hmem hlk hp hty hsw hjl hlv
    cases hti : tool_input with
    | nil => rw [hti] at hmem; cases hmem
    | cons p rest =>
      cases hpr : td.properties with
      | nil => rw [hpr] at hp; simp [alistGet] at hp
      | cons q qs =>
        have hmem2 : (param, PyVal.str s) ∈ p :: rest := hti ▸ hmem
        have hnd2 : (alistKeys (p :: rest)).Nodup := hti ▸ hnd
        have hpass := fold_coerce_passthrough jl lv td.properties (p :: rest)
          [] param s psch hmem2 hnd2 hp hty hsw hjl hlv
        simp only [parse_tool_input, hlk, hpr]
        rw [hpr] at hpass
        exact hpass

/-- Witness for C9 at a concrete input: the object-typed parameter p of tool
t carrying the unparsable bracketed string is passed through unchanged and
the key set is preserved. -/
theorem C9_witness :
    alistKeys (parse_tool_input noParse noParse [("p", PyVal.str "[oops")]
      "t" toolsC9) = ["p"] ∧
    alistGet (parse_tool_input noParse noParse [("p", PyVal.str "[oops")]
      "t" toolsC9) "p" = some (PyVal.str "[oops") := by
  have h := C9_coercion_passthrough noParse noParse [("p", PyVal.str "[oops")]
    "t" toolsC9 (by decide)
  refine ⟨h.1, ?_⟩
  exact h.2 "p" "[oops" ⟨[("p", psC9)]⟩ psC9 (by simp) rfl rfl
    (Or.inl rfl) (by decide) rfl rfl
